import Mathlib

/-!
Verification development for the balance-watching engine of the kite
repository (`src/lib/sol.ts` and `src/lib/tokens.ts`).

Each watch session is embedded as a deterministic state machine driven by a
trace of delivery events: the settlements of the asynchronous operations the
session started, the notifications of its push subscription, and the caller's
invocations of the cancellation handle.  JavaScript runs a session's two
workflows as interleaved single-threaded continuations, so a session's
observable behaviour is a fold of the per-delivery code over the arrival
order; the fold below is translated line by line from the TypeScript.

Abort wiring follows the source precisely: in `watchLamportBalance` both the
snapshot request and the subscription receive `abortController.signal`, so a
settlement delivered after cancellation arrives as an `AbortError` rejection
(and an aborted subscription iterator delivers nothing further).  In
`watchTokenBalance` only the subscription receives the signal: the snapshot
balance query and the per-notification balance re-query are called without an
abort signal, so their settlements are delivered unchanged even after
cancellation.
-/

namespace Kite

/-- A JavaScript `Error` value: a `name` (e.g. `"Error"`, `"AbortError"`) and
a `message`. -/
structure Err where
  name : String
  message : String
deriving DecidableEq

/-- A thrown JavaScript value: either an `Error` instance or any other value
(modelled by its string rendering, as the source only ever stringifies it). -/
inductive Thrown where
  | error (e : Err)
  | raw (s : String)
deriving DecidableEq

/-- From `src/lib/errors.ts` / `src/lib/sol.ts` (`ensureError`): an `Error` is
returned unchanged; any other thrown value is wrapped in a fresh `Error` whose
message stringifies it. A fresh `new Error(...)` has name `"Error"`. -/
def ensureError : Thrown → Err
  | .error e => e
  | .raw s => { name := "Error", message := "Non-Error thrown: " ++ s }

/-- The optional-chained `(error as Error)?.name` used by the token watcher:
an `Error` yields its name; any other thrown value yields `undefined`
(modelled as `none`). -/
def thrownName : Thrown → Option String
  | .error e => some e.name
  | .raw _ => none

/-- The error with which an operation wired to an `AbortSignal` settles once
the signal has been aborted. -/
def abortError : Err := { name := "AbortError", message := "The operation was aborted" }

/-! ## Native-balance watcher (`watchLamportBalance`, src/lib/sol.ts) -/

/-- Per-session state of `watchLamportBalance`: the slot of the last-published
update (a signed bigint seeded to `-1n`) and whether the session's
`AbortController` has been aborted. -/
structure SolState where
  lastUpdateSlot : Int
  aborted : Bool
deriving DecidableEq

/-- Session state at the moment `watchLamportBalance` returns its cleanup
function: `lastUpdateSlot = -1n`, controller not aborted. -/
def solInit : SolState := { lastUpdateSlot := -1, aborted := false }

/-- A delivery event of a native-balance session, in arrival order:
settlement of the snapshot `getBalance` call (success carries the response's
context slot and lamports; failure carries the thrown value), a subscription
notification (context slot and lamports), a failure of the subscription
workflow (establishment or iteration), or the caller invoking the
cancellation handle. -/
inductive SolEvent where
  | snapshotOk (slot : Nat) (lamports : Nat)
  | snapshotErr (t : Thrown)
  | subNotif (slot : Nat) (lamports : Nat)
  | subErr (t : Thrown)
  | cancel
deriving DecidableEq

/-- A callback invocation of the native watcher: a balance publish
(`callback(null, lamports)`, recorded with the slot that caused it) or an
error publish (`callback(error, null)`). -/
inductive SolOut where
  | value (slot : Nat) (lamports : Nat)
  | err (e : Err)
deriving DecidableEq

/-- The `(error, balance)` pair actually passed to the caller's callback for
one recorded invocation. -/
def solCallbackArgs : SolOut → Option Err × Option Nat
  | .value _ l => (none, some l)
  | .err e => (some e, none)

/-- One delivery of `watchLamportBalance`, translated from src/lib/sol.ts
lines 104-158.

* `snapshotOk`: the `getBalance` send was wired to the abort signal, so after
  an abort the promise settles as an `AbortError` rejection instead and the
  success branch never runs.  Otherwise the code skips the update iff
  `slot < lastUpdateSlot` and else sets `lastUpdateSlot = slot` and calls
  `callback(null, lamports)` — note a slot *equal* to `lastUpdateSlot` is
  published again.
* `snapshotErr` / `subErr`: the thrown value (replaced by an `AbortError`
  when the abort signal fired first, since these operations are wired to it)
  is normalized by `ensureError`; the callback is invoked with
  `(error, null)` unless the error's name is `'AbortError'`.
* `subNotif`: an aborted subscription iterator delivers nothing; otherwise
  the same slot comparison as the snapshot.
* `cancel`: `abortController.abort()`. -/
def solStep (s : SolState) : SolEvent → SolState × List SolOut
  | .snapshotOk slot lamports =>
      if s.aborted then (s, [])
      else if (slot : Int) < s.lastUpdateSlot then (s, [])
      else ({ s with lastUpdateSlot := slot }, [.value slot lamports])
  | .snapshotErr t =>
      let e := ensureError (if s.aborted then .error abortError else t)
      if e.name ≠ "AbortError" then (s, [.err e]) else (s, [])
  | .subNotif slot lamports =>
      if s.aborted then (s, [])
      else if (slot : Int) < s.lastUpdateSlot then (s, [])
      else ({ s with lastUpdateSlot := slot }, [.value slot lamports])
  | .subErr t =>
      let e := ensureError (if s.aborted then .error abortError else t)
      if e.name ≠ "AbortError" then (s, [.err e]) else (s, [])
  | .cancel => ({ s with aborted := true }, [])

/-- Fold `solStep` over a trace of deliveries from a given state, collecting
the callback invocations in order. -/
def solRunFrom (s : SolState) : List SolEvent → SolState × List SolOut
  | [] => (s, [])
  | e :: es =>
      let se := solStep s e
      let rest := solRunFrom se.1 es
      (rest.1, se.2 ++ rest.2)

/-- The callback invocations of a whole native-balance session on a trace. -/
def solRun (es : List SolEvent) : List SolOut := (solRunFrom solInit es).2

/-- The session state after a whole trace. -/
def solFinal (es : List SolEvent) : SolState := (solRunFrom solInit es).1

/-- The sequence of position markers (slots) of the balance publishes, in
callback order. -/
def solMarkers : List SolOut → List Nat
  | [] => []
  | .value slot _ :: os => slot :: solMarkers os
  | .err _ :: os => solMarkers os

/-- The errors passed to the callback (the `(error, null)` invocations), in
callback order. -/
def errOutputs : List SolOut → List Err
  | [] => []
  | .err e :: os => e :: errOutputs os
  | .value _ _ :: os => errOutputs os

/-! ## Token-balance watcher (`watchTokenBalance`, src/lib/tokens.ts) -/

/-- The balance record returned by `getTokenAccountBalance` and passed to the
token watcher's callback: `{ amount, decimals, uiAmount, uiAmountString }`.
`amount` is a bigint, `uiAmount` is nullable. -/
structure TokenBalance where
  amount : Int
  decimals : Nat
  uiAmount : Option Int
  uiAmountString : String
deriving DecidableEq

/-- The zero balance the token watcher synthesizes when the snapshot query or
a re-query fails without an abort (src/lib/tokens.ts lines 828-834 and
861-868): `{ amount: 0n, decimals: 9, uiAmount: 0, uiAmountString: "0" }`. -/
def zeroTokenBalance : TokenBalance :=
  { amount := 0, decimals := 9, uiAmount := some 0, uiAmountString := "0" }

/-- Per-session state of `watchTokenBalance`: `lastUpdateSlot` (seeded `-1n`),
the abort flag of the session's `AbortController`, whether a balance re-query
started by a notification is still in flight, and how many re-queries the
subscription loop has started (one per notification that passes the slot
check). -/
structure TokState where
  lastUpdateSlot : Int
  aborted : Bool
  pendingRequery : Bool
  requeries : Nat
deriving DecidableEq

/-- Session state at the moment `watchTokenBalance` returns its cleanup
function. -/
def tokInit : TokState :=
  { lastUpdateSlot := -1, aborted := false, pendingRequery := false, requeries := 0 }

/-- A delivery event of a token-balance session, in arrival order: settlement
of the snapshot `getTokenAccountBalance` call (success carries only the
balance record — the call returns no slot), a subscription notification
(the code destructures only `context.slot` from it), settlement of the
balance re-query started by the last kept notification, a failure of the
subscription workflow, or the caller invoking the cancellation handle. -/
inductive TokEvent where
  | snapshotOk (b : TokenBalance)
  | snapshotErr (t : Thrown)
  | subNotif (slot : Nat)
  | requeryOk (b : TokenBalance)
  | requeryErr (t : Thrown)
  | subErr (t : Thrown)
  | cancel
deriving DecidableEq

/-- A callback invocation of the token watcher. -/
inductive TokOut where
  | value (b : TokenBalance)
  | err (e : Err)
deriving DecidableEq

/-- One delivery of `watchTokenBalance`, translated from src/lib/tokens.ts
lines 813-898.

* `snapshotOk`: `fetchInitialBalance` awaits `getTokenAccountBalance` —
  called without an abort signal, so its settlement is delivered even after
  cancellation — and calls `callback(null, balance)` with no slot comparison
  and no update of `lastUpdateSlot`.
* `snapshotErr`: the catch checks `(error as Error)?.name !== 'AbortError'`
  and then calls `callback(null, zeroTokenBalance)` (any non-abort failure is
  treated as "account doesn't exist yet").
* `subNotif`: the subscription is wired to the abort signal, so an aborted
  iterator delivers nothing.  Otherwise the *notification's* slot is compared:
  `slot < lastUpdateSlot` skips the notification without a re-query; else
  `lastUpdateSlot = slot` is stored first and a fresh
  `getTokenAccountBalance` re-query is started (without an abort signal).
* `requeryOk`: the awaited re-query settles and the code calls
  `callback(null, balance)` unconditionally — no further slot comparison, no
  abort check.
* `requeryErr`: a non-abort re-query failure yields
  `callback(null, zeroTokenBalance)`.
* `subErr`: as in the native watcher, normalized by `ensureError` and
  surfaced as `callback(error, null)` unless named `'AbortError'` (an abort
  signal that fired first makes the settlement an `AbortError`).
* `cancel`: `abortController.abort()`. -/
def tokStep (s : TokState) : TokEvent → TokState × List TokOut
  | .snapshotOk b => (s, [.value b])
  | .snapshotErr t =>
      if thrownName t ≠ some "AbortError" then (s, [.value zeroTokenBalance]) else (s, [])
  | .subNotif slot =>
      if s.aborted then (s, [])
      else if (slot : Int) < s.lastUpdateSlot then (s, [])
      else ({ s with lastUpdateSlot := slot, pendingRequery := true, requeries := s.requeries + 1 }, [])
  | .requeryOk b =>
      if s.pendingRequery then ({ s with pendingRequery := false }, [.value b]) else (s, [])
  | .requeryErr t =>
      if s.pendingRequery then
        if thrownName t ≠ some "AbortError" then
          ({ s with pendingRequery := false }, [.value zeroTokenBalance])
        else ({ s with pendingRequery := false }, [])
      else (s, [])
  | .subErr t =>
      let e := ensureError (if s.aborted then .error abortError else t)
      if e.name ≠ "AbortError" then (s, [.err e]) else (s, [])
  | .cancel => ({ s with aborted := true }, [])

/-- Fold `tokStep` over a trace of deliveries from a given state. -/
def tokRunFrom (s : TokState) : List TokEvent → TokState × List TokOut
  | [] => (s, [])
  | e :: es =>
      let se := tokStep s e
      let rest := tokRunFrom se.1 es
      (rest.1, se.2 ++ rest.2)

/-- The callback invocations of a whole token-balance session on a trace. -/
def tokRun (es : List TokEvent) : List TokOut := (tokRunFrom tokInit es).2

/-- The session state after a whole trace. -/
def tokFinal (es : List TokEvent) : TokState := (tokRunFrom tokInit es).1

/-- The number of subscription notifications delivered in a trace. -/
def tokNotifCount : List TokEvent → Nat
  | [] => 0
  | .subNotif _ :: es => tokNotifCount es + 1
  | _ :: es => tokNotifCount es

/-! ## Spec-side definitions (written from the spec's words, for refinement
comparisons against the machines above) -/

/-- The normalized error name a failure event would surface with, `none` for
non-failure events.  Used to state the collaborator contract that genuine
(non-abort-induced) failures are never named `'AbortError'`. -/
def solEventErrName : SolEvent → Option String
  | .snapshotErr t => some (ensureError t).name
  | .subErr t => some (ensureError t).name
  | _ => none

/-- Spec-side error policy, from the spec's words: scanning the deliveries in
order while tracking only whether the session has been cancelled, a workflow
failure is suppressed entirely when the session is already cancelled and
otherwise surfaces exactly once as its normalized error. -/
def solErrSpec (cancelled : Bool) : List SolEvent → List Err
  | [] => []
  | .snapshotErr t :: es => (if cancelled then [] else [ensureError t]) ++ solErrSpec cancelled es
  | .subErr t :: es => (if cancelled then [] else [ensureError t]) ++ solErrSpec cancelled es
  | .cancel :: es => solErrSpec true es
  | .snapshotOk _ _ :: es => solErrSpec cancelled es
  | .subNotif _ _ :: es => solErrSpec cancelled es

/-- Spec-side description of which subscription notifications the token
watcher keeps (and hence re-queries): scanning in order, a notification is
kept exactly when its slot is not below the last kept slot, starting from the
seed position. -/
def keptNotifSlots (last : Int) : List TokEvent → List Nat
  | [] => []
  | .subNotif slot :: es =>
      if (slot : Int) < last then keptNotifSlots last es
      else slot :: keptNotifSlots (slot : Int) es
  | .snapshotOk _ :: es => keptNotifSlots last es
  | .snapshotErr _ :: es => keptNotifSlots last es
  | .requeryOk _ :: es => keptNotifSlots last es
  | .requeryErr _ :: es => keptNotifSlots last es
  | .subErr _ :: es => keptNotifSlots last es
  | .cancel :: es => keptNotifSlots last es

/-! ## The synchronous watch call -/

/-- The synchronous body of `watchLamportBalance` (src/lib/sol.ts lines
98-170) in an exception monad.  Its statements are: create the
`AbortController` and `lastUpdateSlot = -1n` (non-throwing), define the two
async workflow functions (non-throwing), invoke them — calling an `async`
function returns a promise and never throws synchronously, and every fallible
expression inside the workflow bodies (including the synchronous prefix
before the first `await`, where a malformed address makes the RPC call
throw) sits inside a `try`/`catch` that routes the failure to the callback —
and return the cleanup closure.  The call therefore always returns `.ok`,
yielding the initial session state together with the failure deliveries the
workflows will feed into the session: for a malformed address both workflows
fail with the collaborator's error `e`. -/
def watchLamportBalanceCall (validAddress : Bool) (e : Err) :
    Except Err (SolState × List SolEvent) :=
  .ok (solInit, if validAddress then [] else [.snapshotErr (.error e), .subErr (.error e)])

/-- The synchronous body of `watchTokenBalance` (src/lib/tokens.ts lines
807-899), modelled exactly as `watchLamportBalanceCall`: the async workflow
bodies catch their own failures (a malformed owner or mint address makes the
token-account derivation reject inside both workflows), so the call always
returns the cleanup closure without throwing. -/
def watchTokenBalanceCall (validAddress : Bool) (e : Err) :
    Except Err (TokState × List TokEvent) :=
  .ok (tokInit, if validAddress then [] else [.snapshotErr (.error e), .subErr (.error e)])

/-! ## Helper lemmas -/

theorem errOutputs_append (a b : List SolOut) :
    errOutputs (a ++ b) = errOutputs a ++ errOutputs b := by
  induction a with
  | nil => rfl
  | cons o os ih => cases o <;> simp [errOutputs, ih]

theorem solStep_aborted (s : SolState) (e : SolEvent) (h : e ≠ SolEvent.cancel) :
    ((solStep s e).1).aborted = s.aborted := by
  cases e with
  | snapshotOk slot lamports =>
      simp only [solStep]
      split
      · rfl
      · split <;> rfl
  | snapshotErr t =>
      simp only [solStep]
      repeat' split
      all_goals rfl
  | subNotif slot lamports =>
      simp only [solStep]
      split
      · rfl
      · split <;> rfl
  | subErr t =>
      simp only [solStep]
      repeat' split
      all_goals rfl
  | cancel => exact absurd rfl h

theorem solRunFrom_aborted (es : List SolEvent) (s : SolState)
    (h : SolEvent.cancel ∉ es) : ((solRunFrom s es).1).aborted = s.aborted := by
  induction es generalizing s with
  | nil => rfl
  | cons e es ih =>
      have h1 : e ≠ SolEvent.cancel := by
        intro hc; exact h (hc ▸ List.mem_cons_self e es)
      have h2 : SolEvent.cancel ∉ es := fun hm => h (List.mem_cons_of_mem e hm)
      simp only [solRunFrom]
      rw [ih _ h2, solStep_aborted s e h1]

theorem tokStep_aborted (s : TokState) (e : TokEvent) (h : e ≠ TokEvent.cancel) :
    ((tokStep s e).1).aborted = s.aborted := by
  cases e with
  | snapshotOk b => rfl
  | snapshotErr t =>
      simp only [tokStep]
      split <;> rfl
  | subNotif slot =>
      simp only [tokStep]
      split
      · rfl
      · split <;> rfl
  | requeryOk b =>
      simp only [tokStep]
      split <;> rfl
  | requeryErr t =>
      simp only [tokStep]
      split
      · split <;> rfl
      · rfl
  | subErr t =>
      simp only [tokStep]
      repeat' split
      all_goals rfl
  | cancel => exact absurd rfl h

theorem tokRunFrom_aborted (es : List TokEvent) (s : TokState)
    (h : TokEvent.cancel ∉ es) : ((tokRunFrom s es).1).aborted = s.aborted := by
  induction es generalizing s with
  | nil => rfl
  | cons e es ih =>
      have h1 : e ≠ TokEvent.cancel := by
        intro hc; exact h (hc ▸ List.mem_cons_self e es)
      have h2 : TokEvent.cancel ∉ es := fun hm => h (List.mem_cons_of_mem e hm)
      simp only [tokRunFrom]
      rw [ih _ h2, tokStep_aborted s e h1]

/-- Executable check that a marker list is strictly increasing. -/
def strictlyIncreasingB : List Nat → Bool
  | [] => true
  | [_] => true
  | a :: b :: rest => a < b && strictlyIncreasingB (b :: rest)

theorem errOutputs_solRunFrom (es : List SolEvent) (s : SolState)
    (h : ∀ e ∈ es, solEventErrName e ≠ some "AbortError") :
    errOutputs (solRunFrom s es).2 = solErrSpec s.aborted es := by
  induction es generalizing s with
  | nil => rfl
  | cons e es ih =>
      have he : solEventErrName e ≠ some "AbortError" := h e (List.mem_cons_self e es)
      have hes : ∀ x ∈ es, solEventErrName x ≠ some "AbortError" :=
        fun x hx => h x (List.mem_cons_of_mem e hx)
      cases e with
      | snapshotOk slot lamports =>
          simp only [solRunFrom, solStep, solErrSpec, errOutputs_append]
          by_cases hab : s.aborted
          · simpa [hab, errOutputs] using ih s hes
          · by_cases hlt : (slot : Int) < s.lastUpdateSlot
            · simpa [hab, hlt, errOutputs] using ih s hes
            · simpa [hab, hlt, errOutputs] using
                ih { s with lastUpdateSlot := (slot : Int) } hes
      | snapshotErr t =>
          have hne : (ensureError t).name ≠ "AbortError" := by
            intro hn; exact he (by simp [solEventErrName, hn])
          simp only [solRunFrom, solStep, solErrSpec, errOutputs_append]
          by_cases hab : s.aborted
          · simpa [hab, errOutputs, ensureError, abortError] using ih s hes
          · simpa [hab, hne, errOutputs] using ih s hes
      | subNotif slot lamports =>
          simp only [solRunFrom, solStep, solErrSpec, errOutputs_append]
          by_cases hab : s.aborted
          · simpa [hab, errOutputs] using ih s hes
          · by_cases hlt : (slot : Int) < s.lastUpdateSlot
            · simpa [hab, hlt, errOutputs] using ih s hes
            · simpa [hab, hlt, errOutputs] using
                ih { s with lastUpdateSlot := (slot : Int) } hes
      | subErr t =>
          have hne : (ensureError t).name ≠ "AbortError" := by
            intro hn; exact he (by simp [solEventErrName, hn])
          simp only [solRunFrom, solStep, solErrSpec, errOutputs_append]
          by_cases hab : s.aborted
          · simpa [hab, errOutputs, ensureError, abortError] using ih s hes
          · simpa [hab, hne, errOutputs] using ih s hes
      | cancel =>
          simp only [solRunFrom, solStep, solErrSpec, errOutputs_append]
          simpa [errOutputs] using ih { s with aborted := true } hes

theorem tok_requeries_general (es : List TokEvent) (s : TokState)
    (h : TokEvent.cancel ∉ es) (hab : s.aborted = false) :
    ((tokRunFrom s es).1).requeries
      = s.requeries + (keptNotifSlots s.lastUpdateSlot es).length := by
  induction es generalizing s with
  | nil => simp [tokRunFrom, keptNotifSlots]
  | cons e es ih =>
      have h2 : TokEvent.cancel ∉ es := fun hm => h (List.mem_cons_of_mem e hm)
      cases e with
      | snapshotOk b =>
          simp only [tokRunFrom, tokStep, keptNotifSlots]
          exact ih s h2 hab
      | snapshotErr t =>
          simp only [tokRunFrom, tokStep, keptNotifSlots]
          split
          · exact ih _ h2 hab
          · exact ih _ h2 hab
      | subNotif slot =>
          simp only [tokRunFrom, tokStep, keptNotifSlots]
          by_cases hlt : (slot : Int) < s.lastUpdateSlot
          · simpa [hab, hlt] using ih s h2 hab
          · have hx := ih { s with lastUpdateSlot := (slot : Int), pendingRequery := true, requeries := s.requeries + 1 } h2 hab
            simp only [hab, hlt] at hx ⊢
            simp only [Bool.false_eq_true, if_false, reduceIte] at hx ⊢
            simp only [List.length_cons] at hx ⊢
            omega
      | requeryOk b =>
          simp only [tokRunFrom, tokStep, keptNotifSlots]
          split
          · exact ih _ h2 hab
          · exact ih _ h2 hab
      | requeryErr t =>
          simp only [tokRunFrom, tokStep, keptNotifSlots]
          split
          · split
            · exact ih _ h2 hab
            · exact ih _ h2 hab
          · exact ih _ h2 hab
      | subErr t =>
          simp only [tokRunFrom, tokStep, keptNotifSlots]
          repeat' split
          all_goals exact ih _ h2 hab
      | cancel => exact absurd (List.mem_cons_self _ _) h

theorem solRunFrom_double_cancel (pre post : List SolEvent) (s : SolState) :
    solRunFrom s (pre ++ SolEvent.cancel :: SolEvent.cancel :: post)
      = solRunFrom s (pre ++ SolEvent.cancel :: post) := by
  induction pre generalizing s with
  | nil => rfl
  | cons e pre ih => simp only [List.cons_append, solRunFrom, List.append_eq, ih]

theorem tokRunFrom_double_cancel (pre post : List TokEvent) (s : TokState) :
    tokRunFrom s (pre ++ TokEvent.cancel :: TokEvent.cancel :: post)
      = tokRunFrom s (pre ++ TokEvent.cancel :: post) := by
  induction pre generalizing s with
  | nil => rfl
  | cons e pre ih => simp only [List.cons_append, tokRunFrom, List.append_eq, ih]

end Kite

namespace Kite

/-! ## Claims -/

/-- C1: the claim — for every watch session, the sequence of markers of the
published values is the strictly-increasing greedy subsequence of the
deliveries (keep a delivery exactly when its marker strictly exceeds the last
kept one), and in particular is strictly increasing — fails on the code.  The
native watcher skips a delivery only when `slot < lastUpdateSlot`
(src/lib/sol.ts lines 115 and 140), so a delivery whose slot equals the
last-published slot is published again: on the trace below the published
marker sequence is `[5, 5]`, which is not strictly increasing, while the
greedy scan would keep only the first delivery.  Moreover the token watcher's
snapshot publish (src/lib/tokens.ts line 824) performs no marker comparison
at all: it is published even after a newer subscription update. -/
theorem watch_republishes_equal_marker :
    solMarkers (solRun [.snapshotOk 5 1000, .subNotif 5 900]) = [5, 5] ∧
    strictlyIncreasingB (solMarkers (solRun [.snapshotOk 5 1000, .subNotif 5 900])) = false ∧
    tokRun [.subNotif 9, .requeryOk ⟨100, 0, some 100, "100"⟩, .snapshotOk ⟨50, 0, some 50, "50"⟩]
      = [.value ⟨100, 0, some 100, "100"⟩, .value ⟨50, 0, some 50, "50"⟩] := by
  refine ⟨by decide, by decide, by decide⟩

/-- C2: the claim — after the cancel handle is invoked no further callback
occurs, including for the token watcher's balance re-query triggered by a
notification received before cancellation — fails on the code.  The token
watcher's balance queries are not passed the abort signal and no
cancelled-check guards the callback (src/lib/tokens.ts lines 853-868), so on
the trace below the session is cancelled with no callback yet, and the
re-query's settlement, delivered after cancellation, still invokes the
callback. -/
theorem token_requery_callback_after_cancel :
    (tokFinal [.subNotif 2, .cancel]).aborted = true ∧
    tokRun [.subNotif 2, .cancel] = [] ∧
    tokRun [.subNotif 2, .cancel, .requeryOk ⟨250, 0, some 250, "250"⟩]
      = [.value ⟨250, 0, some 250, "250"⟩] := by
  refine ⟨by decide, by decide, by decide⟩

/-- C3: in a native-balance session (the claim's cited code,
`watchLamportBalance` and `ensureError` in src/lib/sol.ts), whenever the
snapshot or subscription workflow fails, the failure is suppressed entirely
when the session has already been cancelled and otherwise surfaces to the
callback as exactly one `(error, null)` invocation carrying the
`ensureError`-normalized error: the errors passed to the callback equal the
spec-side scan `solErrSpec`, under the collaborator contract that genuine
failures are never named `'AbortError'` (only abort-induced settlements
are). -/
theorem sol_error_policy (es : List SolEvent)
    (h : ∀ e ∈ es, solEventErrName e ≠ some "AbortError") :
    errOutputs (solRun es) = solErrSpec false es :=
  errOutputs_solRunFrom es solInit h

/-- Witness for C3 at a concrete trace: the snapshot fails with a non-Error
thrown value before cancellation (surfaced, normalized), and the subscription
fails after cancellation (suppressed). -/
theorem sol_error_policy_witness :
    errOutputs (solRun [.snapshotErr (.raw "boom"), .cancel, .subErr (.error ⟨"Error", "ws closed"⟩)])
      = solErrSpec false [.snapshotErr (.raw "boom"), .cancel, .subErr (.error ⟨"Error", "ws closed"⟩)] :=
  sol_error_policy _ (by decide)

/-- C4: the claim — in the token snapshot workflow an absent account maps to
a synthesized zero balance while every other failure (e.g. a transport
failure) surfaces as `callback(error, null)` — fails on the code: the catch
in `fetchInitialBalance` (src/lib/tokens.ts lines 825-835) treats *every*
non-`AbortError` failure as "account doesn't exist yet", so a transport
failure also produces `callback(null, zeroTokenBalance)` and no error is
ever surfaced by that workflow. -/
theorem token_snapshot_transport_failure_zero_balance :
    tokRun [.snapshotErr (.error ⟨"TypeError", "fetch failed"⟩)]
      = [.value zeroTokenBalance] := by
  decide

/-- C5: the claim — every subscription notification triggers a fresh balance
re-query, and the re-query's result with the re-query's own marker is what is
compared and published — fails on the code: a notification whose slot is
below `lastUpdateSlot` is skipped without any re-query (src/lib/tokens.ts
lines 849-851), and it is the notification's slot, not a marker of the
re-query (which returns none), that is compared and stored.  On the trace
below two notifications arrive but only one re-query is started. -/
theorem token_requery_not_per_notification :
    tokNotifCount [.subNotif 5, .requeryOk zeroTokenBalance, .subNotif 3] = 2 ∧
    (tokFinal [.subNotif 5, .requeryOk zeroTokenBalance, .subNotif 3]).requeries = 1 ∧
    (tokFinal [.subNotif 5, .requeryOk zeroTokenBalance, .subNotif 3]).requeries
      ≠ tokNotifCount [.subNotif 5, .requeryOk zeroTokenBalance, .subNotif 3] := by
  refine ⟨by decide, by decide, by decide⟩

/-- C5 (amended): in a never-cancelled token session, a subscription
notification triggers a fresh balance re-query exactly when its slot is not
below the last kept notification slot (seeded `-1`): the number of re-queries
started equals the length of the greedy scan `keptNotifSlots`; the
notification's own slot is what is compared and stored as the session
position, and the re-query's settled balance is published to the callback
unchanged, carrying no marker of its own. -/
theorem token_requery_per_kept_notification (es : List TokEvent)
    (h : TokEvent.cancel ∉ es) :
    (tokFinal es).requeries = (keptNotifSlots (-1) es).length ∧
    tokRun [.subNotif 5, .requeryOk ⟨75, 0, some 75, "75"⟩]
      = [.value ⟨75, 0, some 75, "75"⟩] := by
  refine ⟨?_, by decide⟩
  simpa [tokFinal, tokInit] using tok_requeries_general es tokInit h rfl

/-- Witness for C5 (amended) at a concrete trace: notifications with slots
4, 2, 6 — the slot-2 notification is skipped, so two re-queries run. -/
theorem token_requery_per_kept_notification_witness :
    (tokFinal [.subNotif 4, .requeryOk zeroTokenBalance, .subNotif 2, .subNotif 6]).requeries
        = (keptNotifSlots (-1) [.subNotif 4, .requeryOk zeroTokenBalance, .subNotif 2, .subNotif 6]).length ∧
    tokRun [.subNotif 5, .requeryOk ⟨75, 0, some 75, "75"⟩]
      = [.value ⟨75, 0, some 75, "75"⟩] :=
  token_requery_per_kept_notification _ (by decide)

/-- C6: scenario A — snapshot delivers `(slot 5, 1000)`, then the
subscription delivers `(slot 3, 900)`: the callback is invoked exactly once,
with `(null, 1000)`; scenario B — snapshot `(slot 5, 1000)` then
subscription `(slot 7, 1500)`: the callback is invoked exactly twice, with
`(null, 1000)` then `(null, 1500)`. -/
theorem sol_scenarios_a_b :
    (solRun [.snapshotOk 5 1000, .subNotif 3 900]).map solCallbackArgs
      = [(none, some 1000)] ∧
    (solRun [.snapshotOk 5 1000, .subNotif 7 1500]).map solCallbackArgs
      = [(none, some 1000), (none, some 1500)] := by
  refine ⟨by decide, by decide⟩

/-- C7: the cancellation handle (`() => abortController.abort()`, returned
synchronously before either workflow settles, with the session still in its
initial state) is idempotent: applying it to a session state twice equals
applying it once, and a session trace containing two consecutive
cancellations is observationally identical — same final state, same callback
invocations — to the trace with one, for both watchers. -/
theorem cancel_handle_idempotent :
    (∀ s : SolState, solStep (solStep s .cancel).1 .cancel = solStep s .cancel) ∧
    (∀ pre post : List SolEvent,
        solRunFrom solInit (pre ++ SolEvent.cancel :: SolEvent.cancel :: post)
          = solRunFrom solInit (pre ++ SolEvent.cancel :: post)) ∧
    (∀ pre post : List TokEvent,
        tokRunFrom tokInit (pre ++ TokEvent.cancel :: TokEvent.cancel :: post)
          = tokRunFrom tokInit (pre ++ TokEvent.cancel :: post)) :=
  ⟨fun _ => rfl,
   fun pre post => solRunFrom_double_cancel pre post solInit,
   fun pre post => tokRunFrom_double_cancel pre post tokInit⟩

/-- C8: a token session whose snapshot query reports that the token account
does not exist invokes the callback once with
`(null, {amount: 0, decimals: 9, uiAmount: 0, uiAmountString: "0"})` — the
default decimal count is the fixed constant 9 (src/lib/tokens.ts line 830),
independent of the mint. -/
theorem token_absent_account_zero_balance :
    tokRun [.snapshotErr (.error ⟨"Error", "Invalid param: could not find account"⟩)]
      = [.value zeroTokenBalance] ∧
    zeroTokenBalance
      = { amount := 0, decimals := 9, uiAmount := some 0, uiAmountString := "0" } := by
  refine ⟨by decide, by decide⟩

/-- C9: a workflow failure never cancels the session or aborts the other
workflow: in any trace without a cancellation the abort flag stays `false`
(for both watchers), and concretely, after a native snapshot failure the
subscription still publishes its next update. -/
theorem failure_does_not_abort (esS : List SolEvent) (esT : List TokEvent)
    (hS : SolEvent.cancel ∉ esS) (hT : TokEvent.cancel ∉ esT) :
    (solFinal esS).aborted = false ∧
    (tokFinal esT).aborted = false ∧
    solRun [.snapshotErr (.raw "network down"), .subNotif 7 1500]
      = [.err (ensureError (.raw "network down")), .value 7 1500] :=
  ⟨solRunFrom_aborted esS solInit hS,
   tokRunFrom_aborted esT tokInit hT,
   by decide⟩

/-- Witness for C9 at concrete traces containing a failure in one workflow
and a subsequent delivery of the other. -/
theorem failure_does_not_abort_witness :
    (solFinal [.snapshotErr (.raw "network down"), .subNotif 7 1500]).aborted = false ∧
    (tokFinal [.subErr (.error ⟨"Error", "ws closed"⟩), .subNotif 3]).aborted = false ∧
    solRun [.snapshotErr (.raw "network down"), .subNotif 7 1500]
      = [.err (ensureError (.raw "network down")), .value 7 1500] :=
  failure_does_not_abort _ _ (by decide) (by decide)

/-- C10: for every input — a well-formed or malformed address/mint — the
watch call itself never throws: it returns `.ok` with the cleanup handle and
initial session state, and a malformed identity surfaces only asynchronously
through the callback (for the native watcher as one normalized
`(error, null)` per failing workflow; for the token watcher the snapshot
failure becomes the zero-balance publish and the subscription failure an
`(error, null)`). -/
theorem watch_call_never_throws (v : Bool) (e : Err) (h : e.name ≠ "AbortError") :
    watchLamportBalanceCall v e
      = .ok (solInit, if v then [] else [.snapshotErr (.error e), .subErr (.error e)]) ∧
    watchTokenBalanceCall v e
      = .ok (tokInit, if v then [] else [.snapshotErr (.error e), .subErr (.error e)]) ∧
    errOutputs (solRun (if v then [] else [.snapshotErr (.error e), .subErr (.error e)]))
      = (if v then [] else [e, e]) ∧
    tokRun (if v then [] else [.snapshotErr (.error e), .subErr (.error e)])
      = (if v then [] else [.value zeroTokenBalance, .err e]) := by
  cases v with
  | true => exact ⟨rfl, rfl, rfl, rfl⟩
  | false =>
      refine ⟨rfl, rfl, ?_, ?_⟩
      · simp [solRun, solRunFrom, solStep, solInit, ensureError, errOutputs, h]
      · simp [tokRun, tokRunFrom, tokStep, tokInit, ensureError, thrownName, h]

/-- Witness for C10 at a malformed identity with a concrete collaborator
error. -/
theorem watch_call_never_throws_witness :
    watchLamportBalanceCall false ⟨"Error", "Invalid address"⟩
      = .ok (solInit, if false then [] else
          [.snapshotErr (.error ⟨"Error", "Invalid address"⟩),
           .subErr (.error ⟨"Error", "Invalid address"⟩)]) ∧
    watchTokenBalanceCall false ⟨"Error", "Invalid address"⟩
      = .ok (tokInit, if false then [] else
          [.snapshotErr (.error ⟨"Error", "Invalid address"⟩),
           .subErr (.error ⟨"Error", "Invalid address"⟩)]) ∧
    errOutputs (solRun (if false then [] else
          [.snapshotErr (.error ⟨"Error", "Invalid address"⟩),
           .subErr (.error ⟨"Error", "Invalid address"⟩)]))
      = (if false then [] else [⟨"Error", "Invalid address"⟩, ⟨"Error", "Invalid address"⟩]) ∧
    tokRun (if false then [] else
          [.snapshotErr (.error ⟨"Error", "Invalid address"⟩),
           .subErr (.error ⟨"Error", "Invalid address"⟩)])
      = (if false then [] else [.value zeroTokenBalance, .err ⟨"Error", "Invalid address"⟩]) :=
  watch_call_never_throws false ⟨"Error", "Invalid address"⟩ (by decide)

end Kite
